import Mathlib

/- Verification development for the crop-risk NL-to-SQL assistant (src/app.py).

   Python strings are modelled as lists of characters (`PyStr`); Python
   functions that can raise are modelled in `Except`; the two external
   collaborators are parameters: the completion model is an oracle
   `llm : PyStr → PyStr` and the database is a `DbWorld` describing whether
   the connection opens and whether statement execution succeeds, together
   with the rows and column names it would return.  Outbound calls and
   connection open/close events are recorded in explicit lists so that the
   orchestration claims (which call happens when, and whether the connection
   is closed) are visible in the model. -/

abbrev PyStr := List Char

/-- The backtick character, written via its code point. -/
def tick : Char := Char.ofNat 96

/-- A Lean string literal viewed as the Python-string model. -/
def pstr (s : String) : PyStr := s.toList

/-- The whitespace characters removed by Python str.strip(). -/
def pyIsSpace (c : Char) : Bool :=
  c = ' ' || c = '\t' || c = '\n' || c = '\r' || c = '\x0b' || c = '\x0c'

/-- Python str.strip(): drop leading and trailing whitespace. -/
def pyStrip (s : PyStr) : PyStr :=
  ((s.dropWhile pyIsSpace).reverse.dropWhile pyIsSpace).reverse

/-- Python str.split(sep) for a one-character separator: every occurrence of
the separator splits, empty pieces are kept, and the result is never empty. -/
def pySplit (sep : Char) : PyStr → List PyStr
  | [] => [[]]
  | c :: rest =>
    match pySplit sep rest with
    | [] => [[]]
    | hd :: tl => if c = sep then [] :: hd :: tl else (c :: hd) :: tl

/-- response.text.split of src/app.py line 66. -/
def pySplitLines (text : PyStr) : List PyStr := pySplit '\n' text

/-- Length of the run of backticks at the head of the string. -/
def leadTicks : List Char → Nat
  | [] => 0
  | c :: rest => if c = tick then leadTicks rest + 1 else 0

/-- Whether the string contains three consecutive backticks (the markdown
code-fence marker) as a substring: some suffix starts with three backticks. -/
def occursTicks : List Char → Bool
  | [] => false
  | c :: rest => decide (3 ≤ leadTicks (c :: rest)) || occursTicks rest

/-- Python str.replace with the fixed pattern of three backticks and empty
replacement: scan left to right, removing each non-overlapping occurrence. -/
def removeTicks : List Char → List Char
  | c1 :: c2 :: c3 :: t =>
    if c1 = tick ∧ c2 = tick ∧ c3 = tick then removeTicks t
    else c1 :: removeTicks (c2 :: c3 :: t)
  | l => l

/-- Python str.replace with the six-character pattern backtick backtick
backtick s q l and empty replacement, scanning left to right. -/
def removeSqlFence : List Char → List Char
  | c1 :: c2 :: c3 :: c4 :: c5 :: c6 :: t =>
    if c1 = tick ∧ c2 = tick ∧ c3 = tick ∧ c4 = 's' ∧ c5 = 'q' ∧ c6 = 'l' then
      removeSqlFence t
    else c1 :: removeSqlFence (c2 :: c3 :: c4 :: c5 :: c6 :: t)
  | l => l

/-- Python str.replace with the seven-character pattern backtick backtick
backtick h t m l and empty replacement, scanning left to right. -/
def removeHtmlFence : List Char → List Char
  | c1 :: c2 :: c3 :: c4 :: c5 :: c6 :: c7 :: t =>
    if c1 = tick ∧ c2 = tick ∧ c3 = tick ∧ c4 = 'h' ∧ c5 = 't' ∧ c6 = 'm' ∧ c7 = 'l' then
      removeHtmlFence t
    else c1 :: removeHtmlFence (c2 :: c3 :: c4 :: c5 :: c6 :: c7 :: t)
  | l => l

/-- clean_sql_query (src/app.py lines 14-15):
sql_query.replace with the sql fence, then with the bare fence, then strip. -/
def clean_sql_query (sql_query : PyStr) : PyStr :=
  pyStrip (removeTicks (removeSqlFence sql_query))

/-- clean_html_query (src/app.py lines 17-18):
sql_query.replace with the html fence, then with the bare fence, then strip. -/
def clean_html_query (sql_query : PyStr) : PyStr :=
  pyStrip (removeTicks (removeHtmlFence sql_query))

/-- The parsed triple returned by generate_sql_with_explanation
(src/app.py lines 90-94). -/
structure GeneratedSQLInfo where
  query : PyStr
  explanation : PyStr
  analysis_points : PyStr
deriving DecidableEq

def mQUERY : PyStr := pstr ("QUERY:")

def mEXPLANATION : PyStr := pstr ("EXPLANATION:")

def mANALYSIS : PyStr := pstr ("ANALYSIS_POINTS:")

def secQuery : PyStr := pstr ("query")

def secExplanation : PyStr := pstr ("explanation")

def secAnalysis : PyStr := pstr ("analysis")

/-- The loop state of the response parser (src/app.py lines 67-71): the three
accumulating buffers and current_section, which starts as the empty string. -/
structure ParseAcc where
  sql_query : PyStr
  explanation : PyStr
  analysis_points : PyStr
  current_section : PyStr
deriving DecidableEq

def initAcc : ParseAcc :=
  { sql_query := [], explanation := [], analysis_points := [], current_section := [] }

/-- One iteration of the parsing loop (src/app.py lines 72-88): a recognized
line prefix switches the section and contributes nothing (the continue); any
other line is stripped and appended, with a space, to the active buffer. -/
def parseStep (acc : ParseAcc) (line : PyStr) : ParseAcc :=
  if mQUERY.isPrefixOf line then { acc with current_section := secQuery }
  else if mEXPLANATION.isPrefixOf line then { acc with current_section := secExplanation }
  else if mANALYSIS.isPrefixOf line then { acc with current_section := secAnalysis }
  else if acc.current_section = secQuery then
    { acc with sql_query := acc.sql_query ++ pyStrip line ++ pstr (" ") }
  else if acc.current_section = secExplanation then
    { acc with explanation := acc.explanation ++ pyStrip line ++ pstr (" ") }
  else if acc.current_section = secAnalysis then
    { acc with analysis_points := acc.analysis_points ++ pyStrip line ++ pstr (" ") }
  else acc

/-- The parse of a raw completion text (src/app.py lines 66-94): split into
lines, fold the loop, then clean: the query buffer through clean_sql_query,
the explanation buffer merely stripped, the analysis buffer stripped and then
through clean_html_query. -/
def parseResponse (text : PyStr) : GeneratedSQLInfo :=
  { query := clean_sql_query ((pySplitLines text).foldl parseStep initAcc).sql_query
    explanation := pyStrip ((pySplitLines text).foldl parseStep initAcc).explanation
    analysis_points :=
      clean_html_query (pyStrip ((pySplitLines text).foldl parseStep initAcc).analysis_points) }

/-- A line that switches the section: it starts with one of the three markers. -/
def isMarkerLine (l : PyStr) : Bool :=
  mQUERY.isPrefixOf l || mEXPLANATION.isPrefixOf l || mANALYSIS.isPrefixOf l

/-- The buffer a run of marker-free lines accumulates to: each line stripped,
followed by one space. -/
def pyAccum : List PyStr → PyStr
  | [] => []
  | l :: ls => pyStrip l ++ pstr (" ") ++ pyAccum ls

/-- Names for the three labeled sections, to quantify over them. -/
inductive SectionMarker where
  | queryM
  | explM
  | analM
deriving DecidableEq

def markerText : SectionMarker → PyStr
  | .queryM => mQUERY
  | .explM => mEXPLANATION
  | .analM => mANALYSIS

def fieldOf (g : GeneratedSQLInfo) : SectionMarker → PyStr
  | .queryM => g.query
  | .explM => g.explanation
  | .analM => g.analysis_points

/-- The fixed schema context (src/app.py lines 21-42). -/
def metadata_context : PyStr :=
  pstr ("\nTable: aiops.haryana_risk_data\nColumns:\n    month integer,\n    ndvi real,\n    soilmoisture real,\n    rainfall real,\n    temperature real,\n    windspeed real,\n    humidity real,\n    soil_ph real,\n    historicalrisk real,\n    croptype text,\n    riskscore real\n\nDefault Behavior:\n  - If not specified, sort by RiskScore in descending order.\n  - If crop type is missing, consider all crops.\n  - Always use lowercase column name strictly\n  - Use aiops.haryana_risk_data strictly as table name while generating queries.\n  - Note: croptype values can be \x27Wheat\x27, \x27Rice\x27, \x27Cotton\x27, \x27Mustard\x27, \x27Sugarcane\x27\n")

/-- The completion prompt of generate_sql_with_explanation (src/app.py lines
45-60): schema context, the quoted user query, the extra feedback context, and
the fixed three-section formatting instructions. -/
def buildPrompt (user_query extra_context : PyStr) : PyStr :=
  metadata_context ++ pstr ("\n        User Query: \"") ++ user_query ++
    pstr ("\"\n        ") ++ extra_context ++
    pstr ("\n        Please provide:\n        1. A SQL query that returns the matching entries. if no count is mentioned, limit 3\n        2. A plain English explanation of what the SQL query does \n        3. Key aspects to analyze in the results \n\n        Note: Do not mention table name ever in sql explanation or analysis.\n        Note: Always generate sql query compatible with PostgreSQL\n        \n        Format your response as:\n        QUERY: <the SQL query>\n        EXPLANATION: <plain English explanation>\n        ANALYSIS_POINTS: <key points to analyze>\n        ")

/-- generate_sql_with_explanation (src/app.py lines 44-94): build the prompt,
call the completion model, parse its text. -/
def generate_sql_with_explanation (llm : PyStr → PyStr)
    (user_query extra_context : PyStr) : GeneratedSQLInfo :=
  parseResponse (llm (buildPrompt user_query extra_context))

/-- A scalar database value carried through rows: the claims never compute on
scalars, they are only stored and rendered. -/
inductive PyScalar where
  | num : Int → PyScalar
  | text : PyStr → PyScalar
deriving DecidableEq

/-- The in-memory result table (pd.DataFrame of src/app.py line 137): the
column names from cursor.description and all fetched rows. -/
structure DataFrame where
  columns : List PyStr
  rows : List (List PyScalar)
deriving DecidableEq

/-- The Python exceptions the modelled paths can raise: the KeyError from a
dict subscript on a missing key, and the psycopg2 connect failure. -/
inductive PyError where
  | keyError : PyStr → PyError
  | dbConnectError : PyError
deriving DecidableEq

/-- Observable events of one executor call: the connection opened, the
connection closed (the finally block), and the except-branch print. -/
inductive Ev where
  | connOpened
  | connClosed
  | errorLogged
deriving DecidableEq

/-- The database side of one executor call: whether psycopg2.connect succeeds,
whether the statement execution inside the try block succeeds, and the rows
and column names a successful execution returns. -/
structure DbWorld where
  connectOk : Bool
  execOk : Bool
  resultRows : List (List PyScalar)
  resultCols : List PyStr
deriving DecidableEq

set_option linter.unusedVariables false in
/-- execute_sql_query (src/app.py lines 122-143).  psycopg2.connect stands
before the try block: its failure raises out of the function with no
connection event.  Inside try, execution failure is caught by the except
branch, which logs and returns None; the finally branch closes the
connection on both the success and the caught-failure path. -/
def execute_sql_query (w : DbWorld) (sql_query : PyStr) :
    Except PyError (Option DataFrame) × List Ev :=
  if w.connectOk then
    if w.execOk then
      (Except.ok (some { columns := w.resultCols, rows := w.resultRows }),
        [Ev.connOpened, Ev.connClosed])
    else
      (Except.ok none, [Ev.connOpened, Ev.errorLogged, Ev.connClosed])
  else
    (Except.error PyError.dbConnectError, [])

def joinSp : List PyStr → PyStr
  | [] => []
  | x :: xs => x ++ pstr (" ") ++ joinSp xs

def scalarText : PyScalar → PyStr
  | .num n => pstr (toString n)
  | .text s => s

/-- df.to_string (pandas, an external collaborator): a textual table holding
the column names and every cell value.  No claim depends on the layout. -/
def df_to_string (df : DataFrame) : PyStr :=
  joinSp df.columns ++ pstr ("\n") ++ joinSp (df.rows.map (fun r => joinSp (r.map scalarText)))

/-- The summarizer prompt of analyze_results (src/app.py lines 98-116). -/
def analyzePrompt (data_str analysis_points user_query : PyStr) : PyStr :=
  pstr ("\n    Given the following data and analysis points, provide a comprehensive analysis in html format not more than 200 words:\n    \n    User Query: ") ++
    user_query ++ pstr ("\n    Analysis Points: ") ++ analysis_points ++
    pstr ("\n    \n    Data Values:\n    ") ++ data_str ++
    pstr ("\n    \n     Please provide a detailed analysis including:\n    1. Specific observations from the data values shown\n    2. Key patterns and trends in the actual numbers\n    3. Notable relationships between different columns\n    4. Practical implications based on the exact values\n    5. Specific recommendations based on these data points\n    \n    Format your response with clear headings and bullet points.\n    Use actual values from the data to support your analysis.\n    ")

/-- analyze_results (src/app.py lines 96-120): render the table, build the
summarizer prompt, call the completion model, return its raw text. -/
def analyze_results (llm : PyStr → PyStr) (df : DataFrame)
    (analysis_points user_query : PyStr) : PyStr :=
  llm (analyzePrompt (df_to_string df) analysis_points user_query)

/-- The per-session state: session of Flask, holding the keys user_query and
sql_info when they have been stored. -/
structure SessionState where
  user_query : Option PyStr
  sql_info : Option GeneratedSQLInfo
deriving DecidableEq

/-- The refine request form: request.form.get yields none for an absent key. -/
structure RefineForm where
  action : Option PyStr
  feedback : Option PyStr
deriving DecidableEq

/-- Outbound calls the refine handler makes, in order: a completion call with
its prompt, a database execution with its SQL, a summarizer invocation. -/
inductive Call where
  | llmCall : PyStr → Call
  | dbCall : PyStr → Call
  | analyzeCall : Call
deriving DecidableEq

/-- The three response shapes of the handler: render result.html (sql_query,
sql_explanation, analysis_points, user_query), render results.html (results,
sql_query, sql_explanation, analysis), or redirect to the index page. -/
inductive Response where
  | resultPage : PyStr → PyStr → PyStr → PyStr → Response
  | resultsPage : DataFrame → PyStr → PyStr → PyStr → Response
  | redirectIndex : Response
deriving DecidableEq

def actModify : PyStr := pstr ("modify")

def actConfirm : PyStr := pstr ("confirm")

/-- refine (src/app.py lines 163-193).  user_query is session.get with default
empty; on action modify the handler regenerates with the feedback as extra
context, overwrites session sql_info and renders result.html; on action
confirm it reads session.get of sql_info with default empty dict — the
subscript of the key query on that empty default raises KeyError when no
GeneratedSQLInfo was stored — then executes the SQL (whose own uncaught
exceptions propagate), and either summarizes and renders results.html or, for
an absent result, falls through to the redirect; any other action (or no
action) falls through to the redirect.  The Except error is an uncaught
Python exception escaping the handler. -/
def refine (llm : PyStr → PyStr) (w : DbWorld) (sess : SessionState) (form : RefineForm) :
    Except PyError (Response × SessionState × List Call × List Ev) :=
  if form.action = some actModify then
    Except.ok
      (Response.resultPage
          (generate_sql_with_explanation llm (sess.user_query.getD []) (form.feedback.getD [])).query
          (generate_sql_with_explanation llm (sess.user_query.getD []) (form.feedback.getD [])).explanation
          (generate_sql_with_explanation llm (sess.user_query.getD []) (form.feedback.getD [])).analysis_points
          (sess.user_query.getD []),
        { sess with
            sql_info := some (generate_sql_with_explanation llm (sess.user_query.getD []) (form.feedback.getD [])) },
        [Call.llmCall (buildPrompt (sess.user_query.getD []) (form.feedback.getD []))],
        [])
  else if form.action = some actConfirm then
    match sess.sql_info with
    | none => Except.error (PyError.keyError secQuery)
    | some sql_info =>
      match execute_sql_query w sql_info.query with
      | (Except.error e, _) => Except.error e
      | (Except.ok (some df), evs) =>
        Except.ok
          (Response.resultsPage df sql_info.query sql_info.explanation
              (clean_html_query (analyze_results llm df sql_info.analysis_points (sess.user_query.getD []))),
            sess,
            [Call.dbCall sql_info.query, Call.analyzeCall],
            evs)
      | (Except.ok none, evs) =>
        Except.ok (Response.redirectIndex, sess, [Call.dbCall sql_info.query], evs)
  else
    Except.ok (Response.redirectIndex, sess, [], [])

/-- A trivial completion oracle for concrete witnesses. -/
def llm0 : PyStr → PyStr := fun _ => []

def wOk : DbWorld := { connectOk := true, execOk := true, resultRows := [], resultCols := [] }

def wExecFail : DbWorld := { connectOk := true, execOk := false, resultRows := [], resultCols := [] }

def wConnFail : DbWorld := { connectOk := false, execOk := true, resultRows := [], resultCols := [] }

def sessEmpty : SessionState := { user_query := none, sql_info := none }

def infoSample : GeneratedSQLInfo :=
  { query := pstr ("SELECT 1"), explanation := pstr ("one"), analysis_points := pstr ("pts") }

def sessProposed : SessionState :=
  { user_query := some (pstr ("top rice fields")), sql_info := some infoSample }

/- Lemmas about backtick runs, occurrence of the fence marker, and the
replace and strip operations. -/

theorem leadTicks_le_length (l : List Char) : leadTicks l ≤ l.length := by
  induction l with
  | nil => simp [leadTicks]
  | cons c rest ih =>
    by_cases h : c = tick
    · simp only [leadTicks, if_pos h, List.length_cons]
      omega
    · simp [leadTicks, h]

theorem occursTicks_cons (c : Char) (rest : List Char) :
    occursTicks (c :: rest) = (decide (3 ≤ leadTicks (c :: rest)) || occursTicks rest) := rfl

theorem leadTicks_append_le (l b : List Char) : leadTicks l ≤ leadTicks (l ++ b) := by
  induction l with
  | nil => simp [leadTicks]
  | cons c rest ih =>
    by_cases h : c = tick
    · simp only [List.cons_append, leadTicks, if_pos h]
      exact Nat.add_le_add_right ih 1
    · simp [leadTicks, h]

theorem occursTicks_append_right {m : List Char} (b : List Char) (h : occursTicks m = true) :
    occursTicks (m ++ b) = true := by
  induction m with
  | nil => simp [occursTicks] at h
  | cons c rest ih =>
    rw [occursTicks_cons] at h
    rw [List.cons_append, occursTicks_cons]
    rcases Bool.or_eq_true_iff.mp h with h1 | h2
    · have h3 : 3 ≤ leadTicks (c :: rest) := of_decide_eq_true h1
      have h4 : 3 ≤ leadTicks ((c :: rest) ++ b) :=
        le_trans h3 (leadTicks_append_le (c :: rest) b)
      rw [List.cons_append] at h4
      rw [decide_eq_true h4, Bool.true_or]
    · rw [ih h2, Bool.or_true]

theorem occursTicks_append_left (a : List Char) {m : List Char} (h : occursTicks m = true) :
    occursTicks (a ++ m) = true := by
  induction a with
  | nil => simpa using h
  | cons c rest ih => rw [List.cons_append, occursTicks_cons, ih, Bool.or_true]

theorem occursTicks_short (l : List Char) (h : l.length ≤ 2) : occursTicks l = false := by
  rcases l with _ | ⟨a, _ | ⟨b, _ | ⟨c, t⟩⟩⟩
  · rfl
  · have h1 := leadTicks_le_length [a]
    rw [occursTicks_cons]
    rw [decide_eq_false (by simp at h1 ⊢; omega)]
    rfl
  · have h1 := leadTicks_le_length [a, b]
    have h2 := leadTicks_le_length [b]
    rw [occursTicks_cons, occursTicks_cons]
    rw [decide_eq_false (by simp at h1 ⊢; omega), decide_eq_false (by simp at h2 ⊢; omega)]
    rfl
  · simp at h

theorem leadTicks_cons_tick (t : List Char) : leadTicks (tick :: t) = leadTicks t + 1 := by
  simp [leadTicks]

theorem leadTicks_cons_other {c : Char} (h : ¬ c = tick) (t : List Char) :
    leadTicks (c :: t) = 0 := by
  simp [leadTicks, h]

theorem removeTicks_spec (s : List Char) :
    occursTicks (removeTicks s) = false ∧
      leadTicks (removeTicks s) ≤ leadTicks s ∧ leadTicks (removeTicks s) ≤ 2 := by
  induction s using removeTicks.induct with
  | case1 c1 c2 c3 t h ih =>
    obtain ⟨h1, h2, h3⟩ := h
    subst h1; subst h2; subst h3
    rw [show removeTicks (tick :: tick :: tick :: t) = removeTicks t from by
      simp [removeTicks]]
    obtain ⟨ho, hl1, hl2⟩ := ih
    refine ⟨ho, ?_, hl2⟩
    rw [leadTicks_cons_tick, leadTicks_cons_tick, leadTicks_cons_tick]
    omega
  | case2 c1 c2 c3 t h ih =>
    rw [show removeTicks (c1 :: c2 :: c3 :: t) = c1 :: removeTicks (c2 :: c3 :: t) from by
      simp only [removeTicks, if_neg h]]
    obtain ⟨ho, hl1, hl2⟩ := ih
    by_cases hc1 : c1 = tick
    · subst hc1
      have hlead23 : leadTicks (c2 :: c3 :: t) ≤ 1 := by
        by_cases hc2 : c2 = tick
        · subst hc2
          have hc3 : ¬ c3 = tick := fun hh => h ⟨rfl, rfl, hh⟩
          rw [leadTicks_cons_tick, leadTicks_cons_other hc3]
        · rw [leadTicks_cons_other hc2]
          omega
      have hlo : leadTicks (removeTicks (c2 :: c3 :: t)) ≤ 1 := le_trans hl1 hlead23
      refine ⟨?_, ?_, ?_⟩
      · rw [occursTicks_cons, ho, Bool.or_false, leadTicks_cons_tick]
        rw [decide_eq_false (by omega)]
      · rw [leadTicks_cons_tick, leadTicks_cons_tick]
        omega
      · rw [leadTicks_cons_tick]
        omega
    · refine ⟨?_, ?_, ?_⟩
      · rw [occursTicks_cons, ho, Bool.or_false, leadTicks_cons_other hc1]
        rw [decide_eq_false (by omega)]
      · rw [leadTicks_cons_other hc1]
        omega
      · rw [leadTicks_cons_other hc1]
        omega
  | case3 l h =>
    rcases l with _ | ⟨a, _ | ⟨b, _ | ⟨c, t⟩⟩⟩
    · exact ⟨rfl, le_refl _, by simp [leadTicks]⟩
    · refine ⟨occursTicks_short [a] (by simp), le_refl _, ?_⟩
      have h1 := leadTicks_le_length [a]
      rw [show removeTicks [a] = [a] from rfl]
      simp at h1
      omega
    · refine ⟨occursTicks_short [a, b] (by simp), le_refl _, ?_⟩
      have h1 := leadTicks_le_length [a, b]
      rw [show removeTicks [a, b] = [a, b] from rfl]
      simp at h1
      omega
    · exact absurd rfl (fun hh => h a b c t hh)

theorem occursTicks_removeTicks (s : List Char) : occursTicks (removeTicks s) = false :=
  (removeTicks_spec s).1

theorem removeTicks_eq_self : ∀ s : List Char, occursTicks s = false → removeTicks s = s := by
  intro s
  induction s using removeTicks.induct with
  | case1 c1 c2 c3 t hc ih =>
    intro h
    exfalso
    obtain ⟨h1, h2, h3⟩ := hc
    subst h1; subst h2; subst h3
    rw [occursTicks_cons] at h
    obtain ⟨h4, _⟩ := Bool.or_eq_false_iff.mp h
    have h5 := decide_eq_false_iff_not.mp h4
    rw [leadTicks_cons_tick, leadTicks_cons_tick, leadTicks_cons_tick] at h5
    omega
  | case2 c1 c2 c3 t hc ih =>
    intro h
    rw [occursTicks_cons] at h
    obtain ⟨_, h2⟩ := Bool.or_eq_false_iff.mp h
    rw [show removeTicks (c1 :: c2 :: c3 :: t) = c1 :: removeTicks (c2 :: c3 :: t) from by
      simp only [removeTicks, if_neg hc]]
    rw [ih h2]
  | case3 l hl =>
    intro _
    rcases l with _ | ⟨a, _ | ⟨b, _ | ⟨c, t⟩⟩⟩
    · rfl
    · rfl
    · rfl
    · exact absurd rfl (fun hh => hl a b c t hh)

theorem removeSqlFence_eq_self : ∀ s : List Char, occursTicks s = false → removeSqlFence s = s := by
  intro s
  induction s using removeSqlFence.induct with
  | case1 c1 c2 c3 c4 c5 c6 t hc ih =>
    intro h
    exfalso
    obtain ⟨h1, h2, h3, _, _, _⟩ := hc
    subst h1; subst h2; subst h3
    rw [occursTicks_cons] at h
    obtain ⟨h4, _⟩ := Bool.or_eq_false_iff.mp h
    have h5 := decide_eq_false_iff_not.mp h4
    rw [leadTicks_cons_tick, leadTicks_cons_tick, leadTicks_cons_tick] at h5
    omega
  | case2 c1 c2 c3 c4 c5 c6 t hc ih =>
    intro h
    rw [occursTicks_cons] at h
    obtain ⟨_, h2⟩ := Bool.or_eq_false_iff.mp h
    rw [show removeSqlFence (c1 :: c2 :: c3 :: c4 :: c5 :: c6 :: t) =
        c1 :: removeSqlFence (c2 :: c3 :: c4 :: c5 :: c6 :: t) from by
      simp only [removeSqlFence, if_neg hc]]
    rw [ih h2]
  | case3 l hl =>
    intro _
    rcases l with _ | ⟨a, _ | ⟨b, _ | ⟨c, _ | ⟨d, _ | ⟨e, _ | ⟨f, t⟩⟩⟩⟩⟩⟩
    · rfl
    · rfl
    · rfl
    · rfl
    · rfl
    · rfl
    · exact absurd rfl (fun hh => hl a b c d e f t hh)

theorem removeHtmlFence_eq_self : ∀ s : List Char, occursTicks s = false → removeHtmlFence s = s := by
  intro s
  induction s using removeHtmlFence.induct with
  | case1 c1 c2 c3 c4 c5 c6 c7 t hc ih =>
    intro h
    exfalso
    obtain ⟨h1, h2, h3, _, _, _, _⟩ := hc
    subst h1; subst h2; subst h3
    rw [occursTicks_cons] at h
    obtain ⟨h4, _⟩ := Bool.or_eq_false_iff.mp h
    have h5 := decide_eq_false_iff_not.mp h4
    rw [leadTicks_cons_tick, leadTicks_cons_tick, leadTicks_cons_tick] at h5
    omega
  | case2 c1 c2 c3 c4 c5 c6 c7 t hc ih =>
    intro h
    rw [occursTicks_cons] at h
    obtain ⟨_, h2⟩ := Bool.or_eq_false_iff.mp h
    rw [show removeHtmlFence (c1 :: c2 :: c3 :: c4 :: c5 :: c6 :: c7 :: t) =
        c1 :: removeHtmlFence (c2 :: c3 :: c4 :: c5 :: c6 :: c7 :: t) from by
      simp only [removeHtmlFence, if_neg hc]]
    rw [ih h2]
  | case3 l hl =>
    intro _
    rcases l with _ | ⟨a, _ | ⟨b, _ | ⟨c, _ | ⟨d, _ | ⟨e, _ | ⟨f, _ | ⟨g, t⟩⟩⟩⟩⟩⟩⟩
    · rfl
    · rfl
    · rfl
    · rfl
    · rfl
    · rfl
    · rfl
    · exact absurd rfl (fun hh => hl a b c d e f g t hh)

theorem dropWhile_head_false (p : Char → Bool) :
    ∀ (l : List Char) (c : Char), (l.dropWhile p).head? = some c → p c = false := by
  intro l
  induction l with
  | nil => intro c h; simp at h
  | cons a rest ih =>
    intro c h
    by_cases hp : p a
    · rw [List.dropWhile_cons_of_pos hp] at h
      exact ih c h
    · rw [List.dropWhile_cons_of_neg hp] at h
      simp at h
      subst h
      exact Bool.eq_false_iff.mpr hp

theorem dropWhile_eq_self_of_head (p : Char → Bool) (l : List Char)
    (h : ∀ c, l.head? = some c → p c = false) : l.dropWhile p = l := by
  cases l with
  | nil => rfl
  | cons a rest =>
    have ha := h a rfl
    exact List.dropWhile_cons_of_neg (by simp [ha])

theorem dropWhile_strip_split (s : PyStr) :
    s.dropWhile pyIsSpace =
      pyStrip s ++ ((s.dropWhile pyIsSpace).reverse.takeWhile pyIsSpace).reverse := by
  have e1 : (s.dropWhile pyIsSpace).reverse =
      (s.dropWhile pyIsSpace).reverse.takeWhile pyIsSpace ++
        (s.dropWhile pyIsSpace).reverse.dropWhile pyIsSpace :=
    (List.takeWhile_append_dropWhile _ _).symm
  have e2 := congrArg List.reverse e1
  rw [List.reverse_reverse, List.reverse_append] at e2
  exact e2

theorem pyStrip_head_false (s : PyStr) (c : Char) (h : (pyStrip s).head? = some c) :
    pyIsSpace c = false := by
  have hne : pyStrip s ≠ [] := by intro hz; rw [hz] at h; simp at h
  have h3 : (s.dropWhile pyIsSpace).head? = some c := by
    rw [dropWhile_strip_split s, List.head?_append_of_ne_nil _ hne]
    exact h
  exact dropWhile_head_false pyIsSpace s c h3

theorem pyStrip_of_clean (l : PyStr)
    (h1 : l.dropWhile pyIsSpace = l) (h2 : l.reverse.dropWhile pyIsSpace = l.reverse) :
    pyStrip l = l := by
  unfold pyStrip
  rw [h1, h2, List.reverse_reverse]

theorem pyStrip_idem (s : PyStr) : pyStrip (pyStrip s) = pyStrip s := by
  apply pyStrip_of_clean
  · exact dropWhile_eq_self_of_head _ _ (fun c hc => pyStrip_head_false s c hc)
  · show (pyStrip s).reverse.dropWhile pyIsSpace = (pyStrip s).reverse
    unfold pyStrip
    rw [List.reverse_reverse, List.dropWhile_idempotent]

theorem occursTicks_infix_false {a m b : List Char} (h : occursTicks (a ++ (m ++ b)) = false) :
    occursTicks m = false := by
  cases hx : occursTicks m with
  | false => rfl
  | true =>
    have ht := occursTicks_append_left a (occursTicks_append_right b hx)
    rw [ht] at h
    exact Bool.noConfusion h

theorem occursTicks_pyStrip {s : PyStr} (h : occursTicks s = false) :
    occursTicks (pyStrip s) = false := by
  have e3 : s = s.takeWhile pyIsSpace ++
      (pyStrip s ++ ((s.dropWhile pyIsSpace).reverse.takeWhile pyIsSpace).reverse) := by
    rw [← dropWhile_strip_split s, List.takeWhile_append_dropWhile]
  rw [e3] at h
  exact occursTicks_infix_false h

theorem occursTicks_clean_sql (s : PyStr) : occursTicks (clean_sql_query s) = false :=
  occursTicks_pyStrip (occursTicks_removeTicks _)

theorem occursTicks_clean_html (s : PyStr) : occursTicks (clean_html_query s) = false :=
  occursTicks_pyStrip (occursTicks_removeTicks _)

theorem clean_sql_query_idem (s : PyStr) :
    clean_sql_query (clean_sql_query s) = clean_sql_query s := by
  have h := occursTicks_clean_sql s
  show pyStrip (removeTicks (removeSqlFence (clean_sql_query s))) = clean_sql_query s
  rw [removeSqlFence_eq_self _ h, removeTicks_eq_self _ h]
  exact pyStrip_idem (removeTicks (removeSqlFence s))

theorem clean_html_query_idem (s : PyStr) :
    clean_html_query (clean_html_query s) = clean_html_query s := by
  have h := occursTicks_clean_html s
  show pyStrip (removeTicks (removeHtmlFence (clean_html_query s))) = clean_html_query s
  rw [removeHtmlFence_eq_self _ h, removeTicks_eq_self _ h]
  exact pyStrip_idem (removeTicks (removeHtmlFence s))

theorem lead_ge3_shape (l : List Char) (h : 3 ≤ leadTicks l) :
    ∃ t, l = tick :: tick :: tick :: t := by
  rcases l with _ | ⟨a, _ | ⟨b, _ | ⟨c, t⟩⟩⟩
  · simp [leadTicks] at h
  · have h1 := leadTicks_le_length [a]
    simp at h1
    omega
  · have h1 := leadTicks_le_length [a, b]
    simp at h1
    omega
  · by_cases ha : a = tick
    · subst ha
      by_cases hb : b = tick
      · subst hb
        by_cases hcc : c = tick
        · subst hcc
          exact ⟨t, rfl⟩
        · rw [leadTicks_cons_tick, leadTicks_cons_tick, leadTicks_cons_other hcc] at h
          omega
      · rw [leadTicks_cons_tick, leadTicks_cons_other hb] at h
        omega
    · rw [leadTicks_cons_other ha] at h
      omega

theorem occursTicks_iff_substring (l : List Char) :
    occursTicks l = true ↔ ∃ a b, l = a ++ [tick, tick, tick] ++ b := by
  constructor
  · intro h
    induction l with
    | nil => simp [occursTicks] at h
    | cons c rest ih =>
      rw [occursTicks_cons] at h
      rcases Bool.or_eq_true_iff.mp h with h1 | h2
      · obtain ⟨t, ht⟩ := lead_ge3_shape _ (of_decide_eq_true h1)
        exact ⟨[], t, by rw [ht]; rfl⟩
      · obtain ⟨a, b, hab⟩ := ih h2
        exact ⟨c :: a, b, by rw [hab]; rfl⟩
  · rintro ⟨a, b, rfl⟩
    rw [List.append_assoc]
    apply occursTicks_append_left
    apply occursTicks_append_right
    decide

/- Lemmas about the response parser loop. -/

theorem isPrefixOf_exists : ∀ {l1 l2 : PyStr}, l1.isPrefixOf l2 = true → ∃ t, l1 ++ t = l2 := by
  intro l1
  induction l1 with
  | nil => intro l2 _; exact ⟨l2, rfl⟩
  | cons a as ih =>
    intro l2 h
    cases l2 with
    | nil => simp [List.isPrefixOf] at h
    | cons b bs =>
      simp only [List.isPrefixOf, Bool.and_eq_true, beq_iff_eq] at h
      obtain ⟨t, ht⟩ := ih h.2
      exact ⟨t, by rw [h.1]; rw [List.cons_append, ht]⟩

theorem not_query_of_expl {l : PyStr} (h : mEXPLANATION.isPrefixOf l = true) :
    mQUERY.isPrefixOf l = false := by
  cases hx : mQUERY.isPrefixOf l with
  | false => rfl
  | true =>
    exfalso
    obtain ⟨t1, h1⟩ := isPrefixOf_exists h
    obtain ⟨t2, h2⟩ := isPrefixOf_exists hx
    have h3 : mQUERY ++ t2 = mEXPLANATION ++ t1 := h2.trans h1.symm
    have hQ : mQUERY = 'Q' :: pstr ("UERY:") := rfl
    have hE : mEXPLANATION = 'E' :: pstr ("XPLANATION:") := rfl
    rw [hQ, hE, List.cons_append, List.cons_append] at h3
    injection h3 with h4 _
    exact absurd h4 (by decide)

theorem not_query_of_anal {l : PyStr} (h : mANALYSIS.isPrefixOf l = true) :
    mQUERY.isPrefixOf l = false := by
  cases hx : mQUERY.isPrefixOf l with
  | false => rfl
  | true =>
    exfalso
    obtain ⟨t1, h1⟩ := isPrefixOf_exists h
    obtain ⟨t2, h2⟩ := isPrefixOf_exists hx
    have h3 : mQUERY ++ t2 = mANALYSIS ++ t1 := h2.trans h1.symm
    have hQ : mQUERY = 'Q' :: pstr ("UERY:") := rfl
    have hA : mANALYSIS = 'A' :: pstr ("NALYSIS_POINTS:") := rfl
    rw [hQ, hA, List.cons_append, List.cons_append] at h3
    injection h3 with h4 _
    exact absurd h4 (by decide)

theorem not_expl_of_anal {l : PyStr} (h : mANALYSIS.isPrefixOf l = true) :
    mEXPLANATION.isPrefixOf l = false := by
  cases hx : mEXPLANATION.isPrefixOf l with
  | false => rfl
  | true =>
    exfalso
    obtain ⟨t1, h1⟩ := isPrefixOf_exists h
    obtain ⟨t2, h2⟩ := isPrefixOf_exists hx
    have h3 : mEXPLANATION ++ t2 = mANALYSIS ++ t1 := h2.trans h1.symm
    have hE : mEXPLANATION = 'E' :: pstr ("XPLANATION:") := rfl
    have hA : mANALYSIS = 'A' :: pstr ("NALYSIS_POINTS:") := rfl
    rw [hE, hA, List.cons_append, List.cons_append] at h3
    injection h3 with h4 _
    exact absurd h4 (by decide)

theorem parseStep_marker_query (acc : ParseAcc) {l : PyStr} (h : mQUERY.isPrefixOf l = true) :
    parseStep acc l = { acc with current_section := secQuery } := by
  unfold parseStep
  rw [if_pos h]

theorem parseStep_marker_expl (acc : ParseAcc) {l : PyStr}
    (h : mEXPLANATION.isPrefixOf l = true) :
    parseStep acc l = { acc with current_section := secExplanation } := by
  unfold parseStep
  rw [if_neg (by simp [not_query_of_expl h]), if_pos h]

theorem parseStep_marker_anal (acc : ParseAcc) {l : PyStr}
    (h : mANALYSIS.isPrefixOf l = true) :
    parseStep acc l = { acc with current_section := secAnalysis } := by
  unfold parseStep
  rw [if_neg (by simp [not_query_of_anal h]), if_neg (by simp [not_expl_of_anal h]), if_pos h]

theorem isMarkerLine_false_parts {l : PyStr} (hm : isMarkerLine l = false) :
    mQUERY.isPrefixOf l = false ∧ mEXPLANATION.isPrefixOf l = false ∧
      mANALYSIS.isPrefixOf l = false := by
  unfold isMarkerLine at hm
  obtain ⟨h12, h3⟩ := Bool.or_eq_false_iff.mp hm
  obtain ⟨h1, h2⟩ := Bool.or_eq_false_iff.mp h12
  exact ⟨h1, h2, h3⟩

theorem parseStep_plain_query (acc : ParseAcc) {l : PyStr} (hm : isMarkerLine l = false)
    (hc : acc.current_section = secQuery) :
    parseStep acc l = { acc with sql_query := acc.sql_query ++ pyStrip l ++ pstr (" ") } := by
  obtain ⟨h1, h2, h3⟩ := isMarkerLine_false_parts hm
  unfold parseStep
  rw [if_neg (by simp [h1]), if_neg (by simp [h2]), if_neg (by simp [h3]), if_pos hc]

theorem parseStep_plain_expl (acc : ParseAcc) {l : PyStr} (hm : isMarkerLine l = false)
    (hc : acc.current_section = secExplanation) :
    parseStep acc l = { acc with explanation := acc.explanation ++ pyStrip l ++ pstr (" ") } := by
  obtain ⟨h1, h2, h3⟩ := isMarkerLine_false_parts hm
  unfold parseStep
  rw [if_neg (by simp [h1]), if_neg (by simp [h2]), if_neg (by simp [h3]),
    if_neg (by rw [hc]; decide), if_pos hc]

theorem parseStep_plain_anal (acc : ParseAcc) {l : PyStr} (hm : isMarkerLine l = false)
    (hc : acc.current_section = secAnalysis) :
    parseStep acc l =
      { acc with analysis_points := acc.analysis_points ++ pyStrip l ++ pstr (" ") } := by
  obtain ⟨h1, h2, h3⟩ := isMarkerLine_false_parts hm
  unfold parseStep
  rw [if_neg (by simp [h1]), if_neg (by simp [h2]), if_neg (by simp [h3]),
    if_neg (by rw [hc]; decide), if_neg (by rw [hc]; decide), if_pos hc]

theorem parseStep_plain_none (acc : ParseAcc) {l : PyStr} (hm : isMarkerLine l = false)
    (hq : acc.current_section ≠ secQuery) (he : acc.current_section ≠ secExplanation)
    (ha : acc.current_section ≠ secAnalysis) :
    parseStep acc l = acc := by
  obtain ⟨h1, h2, h3⟩ := isMarkerLine_false_parts hm
  unfold parseStep
  rw [if_neg (by simp [h1]), if_neg (by simp [h2]), if_neg (by simp [h3]),
    if_neg hq, if_neg he, if_neg ha]

theorem foldl_skip : ∀ (ls : List PyStr) (acc : ParseAcc),
    (∀ l ∈ ls, isMarkerLine l = false) → acc.current_section = [] →
    ls.foldl parseStep acc = acc := by
  intro ls
  induction ls with
  | nil => intro acc _ _; rfl
  | cons l ls ih =>
    intro acc hm hc
    rw [List.foldl_cons, parseStep_plain_none acc (hm l (by simp))
      (by rw [hc]; decide) (by rw [hc]; decide) (by rw [hc]; decide)]
    exact ih acc (fun x hx => hm x (by simp [hx])) hc

theorem foldl_acc_query : ∀ (ls : List PyStr) (acc : ParseAcc),
    (∀ l ∈ ls, isMarkerLine l = false) → acc.current_section = secQuery →
    ls.foldl parseStep acc = { acc with sql_query := acc.sql_query ++ pyAccum ls } := by
  intro ls
  induction ls with
  | nil => intro acc _ _; simp [pyAccum]
  | cons l ls ih =>
    intro acc hm hc
    rw [List.foldl_cons, parseStep_plain_query acc (hm l (by simp)) hc]
    rw [ih { acc with sql_query := acc.sql_query ++ pyStrip l ++ pstr (" ") }
      (fun x hx => hm x (by simp [hx])) hc]
    simp [pyAccum, List.append_assoc]

theorem foldl_acc_expl : ∀ (ls : List PyStr) (acc : ParseAcc),
    (∀ l ∈ ls, isMarkerLine l = false) → acc.current_section = secExplanation →
    ls.foldl parseStep acc = { acc with explanation := acc.explanation ++ pyAccum ls } := by
  intro ls
  induction ls with
  | nil => intro acc _ _; simp [pyAccum]
  | cons l ls ih =>
    intro acc hm hc
    rw [List.foldl_cons, parseStep_plain_expl acc (hm l (by simp)) hc]
    rw [ih { acc with explanation := acc.explanation ++ pyStrip l ++ pstr (" ") }
      (fun x hx => hm x (by simp [hx])) hc]
    simp [pyAccum, List.append_assoc]

theorem foldl_acc_anal : ∀ (ls : List PyStr) (acc : ParseAcc),
    (∀ l ∈ ls, isMarkerLine l = false) → acc.current_section = secAnalysis →
    ls.foldl parseStep acc =
      { acc with analysis_points := acc.analysis_points ++ pyAccum ls } := by
  intro ls
  induction ls with
  | nil => intro acc _ _; simp [pyAccum]
  | cons l ls ih =>
    intro acc hm hc
    rw [List.foldl_cons, parseStep_plain_anal acc (hm l (by simp)) hc]
    rw [ih { acc with analysis_points := acc.analysis_points ++ pyStrip l ++ pstr (" ") }
      (fun x hx => hm x (by simp [hx])) hc]
    simp [pyAccum, List.append_assoc]

theorem foldl_query_inv : ∀ (ls : List PyStr) (acc : ParseAcc),
    (∀ l ∈ ls, mQUERY.isPrefixOf l = false) →
    acc.sql_query = [] → acc.current_section ≠ secQuery →
    (ls.foldl parseStep acc).sql_query = [] := by
  intro ls
  induction ls with
  | nil => intro acc _ hs _; exact hs
  | cons l ls ih =>
    intro acc hm hs hc
    rw [List.foldl_cons]
    have hq := hm l (by simp)
    by_cases he : mEXPLANATION.isPrefixOf l = true
    · rw [parseStep_marker_expl acc he]
      exact ih _ (fun x hx => hm x (by simp [hx])) hs (by show secExplanation ≠ secQuery; decide)
    · by_cases ha : mANALYSIS.isPrefixOf l = true
      · rw [parseStep_marker_anal acc ha]
        exact ih _ (fun x hx => hm x (by simp [hx])) hs (by show secAnalysis ≠ secQuery; decide)
      · have he2 : mEXPLANATION.isPrefixOf l = false := Bool.eq_false_iff.mpr he
        have ha2 : mANALYSIS.isPrefixOf l = false := Bool.eq_false_iff.mpr ha
        have hml : isMarkerLine l = false := by
          unfold isMarkerLine
          rw [hq, he2, ha2]
          rfl
        by_cases hce : acc.current_section = secExplanation
        · rw [parseStep_plain_expl acc hml hce]
          exact ih _ (fun x hx => hm x (by simp [hx])) hs hc
        · by_cases hca : acc.current_section = secAnalysis
          · rw [parseStep_plain_anal acc hml hca]
            exact ih _ (fun x hx => hm x (by simp [hx])) hs hc
          · rw [parseStep_plain_none acc hml hc hce hca]
            exact ih _ (fun x hx => hm x (by simp [hx])) hs hc

theorem foldl_expl_inv : ∀ (ls : List PyStr) (acc : ParseAcc),
    (∀ l ∈ ls, mEXPLANATION.isPrefixOf l = false) →
    acc.explanation = [] → acc.current_section ≠ secExplanation →
    (ls.foldl parseStep acc).explanation = [] := by
  intro ls
  induction ls with
  | nil => intro acc _ hs _; exact hs
  | cons l ls ih =>
    intro acc hm hs hc
    rw [List.foldl_cons]
    have he := hm l (by simp)
    by_cases hq : mQUERY.isPrefixOf l = true
    · rw [parseStep_marker_query acc hq]
      exact ih _ (fun x hx => hm x (by simp [hx])) hs (by show secQuery ≠ secExplanation; decide)
    · by_cases ha : mANALYSIS.isPrefixOf l = true
      · rw [parseStep_marker_anal acc ha]
        exact ih _ (fun x hx => hm x (by simp [hx])) hs (by show secAnalysis ≠ secExplanation; decide)
      · have hq2 : mQUERY.isPrefixOf l = false := Bool.eq_false_iff.mpr hq
        have ha2 : mANALYSIS.isPrefixOf l = false := Bool.eq_false_iff.mpr ha
        have hml : isMarkerLine l = false := by
          unfold isMarkerLine
          rw [hq2, he, ha2]
          rfl
        by_cases hcq : acc.current_section = secQuery
        · rw [parseStep_plain_query acc hml hcq]
          exact ih _ (fun x hx => hm x (by simp [hx])) hs hc
        · by_cases hca : acc.current_section = secAnalysis
          · rw [parseStep_plain_anal acc hml hca]
            exact ih _ (fun x hx => hm x (by simp [hx])) hs hc
          · rw [parseStep_plain_none acc hml hcq hc hca]
            exact ih _ (fun x hx => hm x (by simp [hx])) hs hc

theorem foldl_anal_inv : ∀ (ls : List PyStr) (acc : ParseAcc),
    (∀ l ∈ ls, mANALYSIS.isPrefixOf l = false) →
    acc.analysis_points = [] → acc.current_section ≠ secAnalysis →
    (ls.foldl parseStep acc).analysis_points = [] := by
  intro ls
  induction ls with
  | nil => intro acc _ hs _; exact hs
  | cons l ls ih =>
    intro acc hm hs hc
    rw [List.foldl_cons]
    have ha := hm l (by simp)
    by_cases hq : mQUERY.isPrefixOf l = true
    · rw [parseStep_marker_query acc hq]
      exact ih _ (fun x hx => hm x (by simp [hx])) hs (by show secQuery ≠ secAnalysis; decide)
    · by_cases he : mEXPLANATION.isPrefixOf l = true
      · rw [parseStep_marker_expl acc he]
        exact ih _ (fun x hx => hm x (by simp [hx])) hs (by show secExplanation ≠ secAnalysis; decide)
      · have hq2 : mQUERY.isPrefixOf l = false := Bool.eq_false_iff.mpr hq
        have he2 : mEXPLANATION.isPrefixOf l = false := Bool.eq_false_iff.mpr he
        have hml : isMarkerLine l = false := by
          unfold isMarkerLine
          rw [hq2, he2, ha]
          rfl
        by_cases hcq : acc.current_section = secQuery
        · rw [parseStep_plain_query acc hml hcq]
          exact ih _ (fun x hx => hm x (by simp [hx])) hs hc
        · by_cases hce : acc.current_section = secExplanation
          · rw [parseStep_plain_expl acc hml hce]
            exact ih _ (fun x hx => hm x (by simp [hx])) hs hc
          · rw [parseStep_plain_none acc hml hcq hce hc]
            exact ih _ (fun x hx => hm x (by simp [hx])) hs hc

/- The claims. -/

/-- Claim C3 counterexample: a completion text with all three sections in
order whose EXPLANATION section is a bare code fence.  The parser returns
the fence verbatim in the explanation field: the explanation is not
fence-stripped (both fence strippers would change it), refuting the clause
that each field is trimmed and fence-stripped. -/
theorem c3_counterexample :
    (parseResponse (pstr ("QUERY:\nSELECT 1\nEXPLANATION:\n```\nANALYSIS_POINTS:\nok"))).explanation =
        pstr ("```") ∧
      clean_html_query
          ((parseResponse (pstr ("QUERY:\nSELECT 1\nEXPLANATION:\n```\nANALYSIS_POINTS:\nok"))).explanation) ≠
        (parseResponse (pstr ("QUERY:\nSELECT 1\nEXPLANATION:\n```\nANALYSIS_POINTS:\nok"))).explanation ∧
      clean_sql_query
          ((parseResponse (pstr ("QUERY:\nSELECT 1\nEXPLANATION:\n```\nANALYSIS_POINTS:\nok"))).explanation) ≠
        (parseResponse (pstr ("QUERY:\nSELECT 1\nEXPLANATION:\n```\nANALYSIS_POINTS:\nok"))).explanation :=
  ⟨by decide, by decide, by decide⟩

/-- Claim C3 (amended): for every completion text whose line split is junk
lines, then a QUERY-prefixed line, then query lines, then an
EXPLANATION-prefixed line, then explanation lines, then an
ANALYSIS_POINTS-prefixed line, then analysis lines (no marker-prefixed line
inside any of the runs), the parser returns exactly those section contents:
marker lines switch the section and are not emitted, the other lines are
stripped and space-joined into the active buffer, lines before the first
marker are discarded; the query field is trimmed and fence-stripped, the
analysis field is trimmed and fence-stripped, and the explanation field is
only trimmed (the code never fence-strips the explanation). -/
theorem c3_parser_three_sections (text : PyStr) (js qs es ps : List PyStr)
    (qline eline aline : PyStr)
    (hsplit : pySplitLines text = js ++ qline :: (qs ++ eline :: (es ++ aline :: ps)))
    (hq : mQUERY.isPrefixOf qline = true)
    (he : mEXPLANATION.isPrefixOf eline = true)
    (ha : mANALYSIS.isPrefixOf aline = true)
    (hjs : ∀ l ∈ js, isMarkerLine l = false)
    (hqs : ∀ l ∈ qs, isMarkerLine l = false)
    (hes : ∀ l ∈ es, isMarkerLine l = false)
    (hps : ∀ l ∈ ps, isMarkerLine l = false) :
    parseResponse text =
      { query := clean_sql_query (pyAccum qs)
        explanation := pyStrip (pyAccum es)
        analysis_points := clean_html_query (pyStrip (pyAccum ps)) } := by
  have t1 : parseStep initAcc qline = (⟨[], [], [], secQuery⟩ : ParseAcc) :=
    parseStep_marker_query initAcc hq
  have t2 : List.foldl parseStep (⟨[], [], [], secQuery⟩ : ParseAcc) qs =
      (⟨pyAccum qs, [], [], secQuery⟩ : ParseAcc) := by
    have h := foldl_acc_query qs ⟨[], [], [], secQuery⟩ hqs rfl
    simpa using h
  have t3 : parseStep (⟨pyAccum qs, [], [], secQuery⟩ : ParseAcc) eline =
      (⟨pyAccum qs, [], [], secExplanation⟩ : ParseAcc) :=
    parseStep_marker_expl _ he
  have t4 : List.foldl parseStep (⟨pyAccum qs, [], [], secExplanation⟩ : ParseAcc) es =
      (⟨pyAccum qs, pyAccum es, [], secExplanation⟩ : ParseAcc) := by
    have h := foldl_acc_expl es ⟨pyAccum qs, [], [], secExplanation⟩ hes rfl
    simpa using h
  have t5 : parseStep (⟨pyAccum qs, pyAccum es, [], secExplanation⟩ : ParseAcc) aline =
      (⟨pyAccum qs, pyAccum es, [], secAnalysis⟩ : ParseAcc) :=
    parseStep_marker_anal _ ha
  have t6 : List.foldl parseStep (⟨pyAccum qs, pyAccum es, [], secAnalysis⟩ : ParseAcc) ps =
      (⟨pyAccum qs, pyAccum es, pyAccum ps, secAnalysis⟩ : ParseAcc) := by
    have h := foldl_acc_anal ps ⟨pyAccum qs, pyAccum es, [], secAnalysis⟩ hps rfl
    simpa using h
  have hfold : (pySplitLines text).foldl parseStep initAcc =
      (⟨pyAccum qs, pyAccum es, pyAccum ps, secAnalysis⟩ : ParseAcc) := by
    rw [hsplit, List.foldl_append, foldl_skip js initAcc hjs rfl,
      List.foldl_cons, t1, List.foldl_append, t2, List.foldl_cons, t3,
      List.foldl_append, t4, List.foldl_cons, t5, t6]
  unfold parseResponse
  rw [hfold]

/-- Claim C3 witness: a concrete three-section completion text, parsed to
exactly its three contents. -/
theorem c3_witness :
    parseResponse (pstr ("intro\nQUERY:\nSELECT 1\nEXPLANATION:\ngood\nANALYSIS_POINTS:\npoint")) =
      { query := pstr ("SELECT 1"), explanation := pstr ("good"),
        analysis_points := pstr ("point") } := by
  have h := c3_parser_three_sections
    (pstr ("intro\nQUERY:\nSELECT 1\nEXPLANATION:\ngood\nANALYSIS_POINTS:\npoint"))
    [pstr ("intro")] [pstr ("SELECT 1")] [pstr ("good")] [pstr ("point")]
    (pstr ("QUERY:")) (pstr ("EXPLANATION:")) (pstr ("ANALYSIS_POINTS:"))
    (by decide) (by decide) (by decide) (by decide)
    (by decide) (by decide) (by decide) (by decide)
  rw [h]
  decide

/-- Claim C4: for every completion text in which a labeled section marker
never occurs as a line prefix, the corresponding field of the parse is the
empty string.  The parser is a total function of the text (no raising
operation occurs on this path), so no error is possible. -/
theorem c4_missing_marker_empty_field (text : PyStr) (m : SectionMarker)
    (h : ∀ l ∈ pySplitLines text, (markerText m).isPrefixOf l = false) :
    fieldOf (parseResponse text) m = [] := by
  cases m with
  | queryM =>
    have hz := foldl_query_inv (pySplitLines text) initAcc h rfl (by decide)
    show clean_sql_query ((pySplitLines text).foldl parseStep initAcc).sql_query = []
    rw [hz]
    decide
  | explM =>
    have hz := foldl_expl_inv (pySplitLines text) initAcc h rfl (by decide)
    show pyStrip ((pySplitLines text).foldl parseStep initAcc).explanation = []
    rw [hz]
    decide
  | analM =>
    have hz := foldl_anal_inv (pySplitLines text) initAcc h rfl (by decide)
    show clean_html_query (pyStrip ((pySplitLines text).foldl parseStep initAcc).analysis_points) = []
    rw [hz]
    decide

/-- Claim C4 witness: a text with no markers at all yields an empty query
field. -/
theorem c4_witness :
    (∀ l ∈ pySplitLines (pstr ("hello world")),
        (markerText SectionMarker.queryM).isPrefixOf l = false) ∧
      fieldOf (parseResponse (pstr ("hello world"))) SectionMarker.queryM = [] :=
  ⟨by decide, c4_missing_marker_empty_field (pstr ("hello world")) SectionMarker.queryM (by decide)⟩

/-- Claim C6: for every raw completion text, the query field of the parsed
GeneratedSQLInfo contains no markdown code-fence marker: occursTicks decides
whether three consecutive backticks occur as a substring (see
occursTicks_iff_substring). -/
theorem c6_query_no_fence (text : PyStr) :
    occursTicks ((parseResponse text).query) = false :=
  occursTicks_clean_sql ((pySplitLines text).foldl parseStep initAcc).sql_query

/-- Claim C7: both fence strippers are idempotent: applying clean_sql_query
(resp. clean_html_query) twice yields what one application yields. -/
theorem c7_fence_strip_idempotent (s : PyStr) :
    clean_sql_query (clean_sql_query s) = clean_sql_query s ∧
      clean_html_query (clean_html_query s) = clean_html_query s :=
  ⟨clean_sql_query_idem s, clean_html_query_idem s⟩

/-- Reducing the confirm branch of refine when a GeneratedSQLInfo is stored:
the handler dispatches on the executor outcome. -/
theorem refine_confirm_eq (llm : PyStr → PyStr) (w : DbWorld) (sess : SessionState)
    (form : RefineForm) (info : GeneratedSQLInfo)
    (hact : form.action = some actConfirm) (hinfo : sess.sql_info = some info) :
    refine llm w sess form =
      match execute_sql_query w info.query with
      | (Except.error e, _) => Except.error e
      | (Except.ok (some df), evs) =>
        Except.ok
          (Response.resultsPage df info.query info.explanation
              (clean_html_query (analyze_results llm df info.analysis_points (sess.user_query.getD []))),
            sess, [Call.dbCall info.query, Call.analyzeCall], evs)
      | (Except.ok none, evs) =>
        Except.ok (Response.redirectIndex, sess, [Call.dbCall info.query], evs) := by
  unfold refine
  rw [hact, hinfo]
  rw [if_neg (by decide), if_pos rfl]

/-- Claim C1 (amended): a confirm action in a session with no stored
GeneratedSQLInfo makes the handler raise an uncaught KeyError for the key
query — the subscript on the empty default dict from session.get — instead
of redirecting; the database is never reached. -/
theorem c1_confirm_without_state_raises (llm : PyStr → PyStr) (w : DbWorld)
    (sess : SessionState) (form : RefineForm)
    (hact : form.action = some actConfirm) (hnone : sess.sql_info = none) :
    refine llm w sess form = Except.error (PyError.keyError secQuery) := by
  unfold refine
  rw [hact, hnone]
  rfl

/-- Claim C1 counterexample: in the empty session, a confirm action makes the
refine handler raise (an uncaught KeyError escapes), refuting the claim that
it does not crash and redirects. -/
theorem c1_counterexample :
    refine llm0 wOk sessEmpty { action := some actConfirm, feedback := none } =
      Except.error (PyError.keyError secQuery) := rfl

/-- Claim C1 witness: the amended theorem applied at a concrete empty
session. -/
theorem c1_witness :
    ({ action := some actConfirm, feedback := none } : RefineForm).action = some actConfirm ∧
      sessEmpty.sql_info = none ∧
      refine llm0 wConnFail sessEmpty { action := some actConfirm, feedback := none } =
        Except.error (PyError.keyError secQuery) :=
  ⟨rfl, rfl, c1_confirm_without_state_raises llm0 wConnFail sessEmpty _ rfl rfl⟩

/-- Claim C2 (amended): exceptions raised inside the try block of
execute_sql_query (statement execution, fetch, result wrapping) are caught at
the executor boundary, logged, and the executor returns None with the
connection closed; but an exception raised by psycopg2.connect, which stands
before the try block, propagates to the caller. -/
theorem c2_executor_catches_exec_failure (w : DbWorld) (sql_query : PyStr)
    (hconn : w.connectOk = true) (hexec : w.execOk = false) :
    execute_sql_query w sql_query =
      (Except.ok none, [Ev.connOpened, Ev.errorLogged, Ev.connClosed]) := by
  unfold execute_sql_query
  rw [hconn, hexec]
  rfl

/-- Claim C2 counterexample: when opening the connection raises, the executor
propagates the exception to its caller instead of returning the no-result
value None. -/
theorem c2_counterexample :
    execute_sql_query wConnFail (pstr ("SELECT 1")) = (Except.error PyError.dbConnectError, []) ∧
      (execute_sql_query wConnFail (pstr ("SELECT 1"))).1 ≠ Except.ok none :=
  ⟨rfl, fun h => Except.noConfusion h⟩

/-- Claim C2 witness: the amended theorem at a concrete failing execution. -/
theorem c2_witness :
    wExecFail.connectOk = true ∧ wExecFail.execOk = false ∧
      execute_sql_query wExecFail (pstr ("SELECT 1")) =
        (Except.ok none, [Ev.connOpened, Ev.errorLogged, Ev.connClosed]) :=
  ⟨rfl, rfl, c2_executor_catches_exec_failure wExecFail (pstr ("SELECT 1")) rfl rfl⟩

/-- Claim C5: in the confirm flow, whenever the executor returns the absent
result None, the summarizer is not invoked (the call list is exactly the
database call) and control redirects to the index; and conversely the
summarizer is invoked only when the executor returned a present DataFrame. -/
theorem c5_absent_result_no_summarizer (llm : PyStr → PyStr) (w : DbWorld)
    (sess : SessionState) (form : RefineForm) (info : GeneratedSQLInfo)
    (hact : form.action = some actConfirm) (hinfo : sess.sql_info = some info) :
    ((execute_sql_query w info.query).1 = Except.ok none →
      refine llm w sess form =
        Except.ok (Response.redirectIndex, sess, [Call.dbCall info.query],
          (execute_sql_query w info.query).2)) ∧
    (∀ resp sess2 calls evs, refine llm w sess form = Except.ok (resp, sess2, calls, evs) →
      Call.analyzeCall ∈ calls →
      ∃ df, (execute_sql_query w info.query).1 = Except.ok (some df)) := by
  have hr := refine_confirm_eq llm w sess form info hact hinfo
  constructor
  · intro hnone
    rcases hres : execute_sql_query w info.query with ⟨r1, evs⟩
    rw [hres] at hr hnone
    simp only at hnone
    subst hnone
    rw [hr]
  · intro resp sess2 calls evs0 heq hmem
    rw [hr] at heq
    rcases hres : execute_sql_query w info.query with ⟨r1, evs⟩
    rw [hres] at heq
    rcases r1 with e | odf
    · simp at heq
    · rcases odf with _ | df
      · simp only [Except.ok.injEq, Prod.mk.injEq] at heq
        obtain ⟨_, _, h3, _⟩ := heq
        rw [← h3] at hmem
        simp at hmem
      · exact ⟨df, rfl⟩

/-- Claim C5 witness: with a failing execution the confirm flow redirects and
does not call the summarizer. -/
theorem c5_witness :
    ({ action := some actConfirm, feedback := none } : RefineForm).action = some actConfirm ∧
      sessProposed.sql_info = some infoSample ∧
      ((execute_sql_query wExecFail infoSample.query).1 = Except.ok none →
        refine llm0 wExecFail sessProposed { action := some actConfirm, feedback := none } =
          Except.ok (Response.redirectIndex, sessProposed, [Call.dbCall infoSample.query],
            (execute_sql_query wExecFail infoSample.query).2)) :=
  ⟨rfl, rfl, (c5_absent_result_no_summarizer llm0 wExecFail sessProposed _ infoSample rfl rfl).1⟩

/-- Claim C8: in a session holding a GeneratedSQLInfo, a refine action modify
re-invokes the prompt builder and parser with the feedback appended as extra
context, overwrites the stored GeneratedSQLInfo with the new parse, renders
the result page, and leaves the stored UserQuery unchanged. -/
theorem c8_modify_overwrites (llm : PyStr → PyStr) (w : DbWorld) (sess : SessionState)
    (form : RefineForm) (info : GeneratedSQLInfo)
    (_hprop : sess.sql_info = some info) (hact : form.action = some actModify) :
    refine llm w sess form =
      Except.ok
        (Response.resultPage
            (generate_sql_with_explanation llm (sess.user_query.getD []) (form.feedback.getD [])).query
            (generate_sql_with_explanation llm (sess.user_query.getD []) (form.feedback.getD [])).explanation
            (generate_sql_with_explanation llm (sess.user_query.getD []) (form.feedback.getD [])).analysis_points
            (sess.user_query.getD []),
          { sess with
              sql_info := some (generate_sql_with_explanation llm (sess.user_query.getD []) (form.feedback.getD [])) },
          [Call.llmCall (buildPrompt (sess.user_query.getD []) (form.feedback.getD []))],
          []) ∧
      ({ sess with
          sql_info := some (generate_sql_with_explanation llm (sess.user_query.getD []) (form.feedback.getD [])) } : SessionState).user_query =
        sess.user_query := by
  constructor
  · unfold refine
    rw [if_pos hact]
  · rfl

/-- Claim C8 witness: a concrete modify action on a proposed session. -/
theorem c8_witness :
    refine llm0 wOk sessProposed
        { action := some actModify, feedback := some (pstr ("sort ascending")) } =
      Except.ok
        (Response.resultPage
            (generate_sql_with_explanation llm0 (pstr ("top rice fields")) (pstr ("sort ascending"))).query
            (generate_sql_with_explanation llm0 (pstr ("top rice fields")) (pstr ("sort ascending"))).explanation
            (generate_sql_with_explanation llm0 (pstr ("top rice fields")) (pstr ("sort ascending"))).analysis_points
            (pstr ("top rice fields")),
          { user_query := some (pstr ("top rice fields")),
            sql_info := some (generate_sql_with_explanation llm0 (pstr ("top rice fields")) (pstr ("sort ascending"))) },
          [Call.llmCall (buildPrompt (pstr ("top rice fields")) (pstr ("sort ascending")))],
          []) :=
  (c8_modify_overwrites llm0 wOk sessProposed
    { action := some actModify, feedback := some (pstr ("sort ascending")) }
    infoSample rfl rfl).1

/-- Claim C9: whenever the executor opens a database connection, that
connection is closed before the call returns, on the success path and on the
caught-failure path alike (the finally block); when connect itself fails, no
connection was opened. -/
theorem c9_connection_closed (w : DbWorld) (sql_query : PyStr)
    (h : Ev.connOpened ∈ (execute_sql_query w sql_query).2) :
    Ev.connClosed ∈ (execute_sql_query w sql_query).2 := by
  cases hcb : w.connectOk with
  | false =>
    rw [show execute_sql_query w sql_query = (Except.error PyError.dbConnectError, []) from by
      unfold execute_sql_query; rw [hcb]; rfl] at h
    simp at h
  | true =>
    cases heb : w.execOk with
    | true =>
      rw [show execute_sql_query w sql_query =
          (Except.ok (some { columns := w.resultCols, rows := w.resultRows }),
            [Ev.connOpened, Ev.connClosed]) from by
        unfold execute_sql_query; rw [hcb, heb]; rfl]
      simp
    | false =>
      rw [show execute_sql_query w sql_query =
          (Except.ok none, [Ev.connOpened, Ev.errorLogged, Ev.connClosed]) from by
        unfold execute_sql_query; rw [hcb, heb]; rfl]
      simp

/-- Claim C9 witness: a successful execution opens and closes the
connection. -/
theorem c9_witness :
    Ev.connOpened ∈ (execute_sql_query wOk (pstr ("SELECT 1"))).2 ∧
      Ev.connClosed ∈ (execute_sql_query wOk (pstr ("SELECT 1"))).2 :=
  ⟨by decide, c9_connection_closed wOk (pstr ("SELECT 1")) (by decide)⟩

/-- Claim C10: a refine request whose action is neither modify nor confirm
(including an absent action) makes no completion call, no database call and
no connection event, leaves the session unchanged, and redirects to the
index page. -/
theorem c10_unknown_action_noop (llm : PyStr → PyStr) (w : DbWorld) (sess : SessionState)
    (form : RefineForm)
    (h1 : form.action ≠ some actModify) (h2 : form.action ≠ some actConfirm) :
    refine llm w sess form = Except.ok (Response.redirectIndex, sess, [], []) := by
  unfold refine
  rw [if_neg h1, if_neg h2]

/-- Claim C10 witness: an absent action redirects and performs no calls. -/
theorem c10_witness :
    refine llm0 wOk sessProposed { action := none, feedback := none } =
      Except.ok (Response.redirectIndex, sessProposed, [], []) :=
  c10_unknown_action_noop llm0 wOk sessProposed
    { action := none, feedback := none } (by decide) (by decide)
